import Mathlib

/-!
Verification of the previewBuilder pipeline (src/previewBuilder.py and
src/createTurntable.py) against its natural-language specification.

The Python program is shallowly embedded: pure path/string arithmetic becomes
Lean functions on `String`, the filesystem scan of the run-directory allocator
becomes a function on an explicit list of directory entries, each subprocess
monitor loop becomes a fold over the list of lines read from the drained
stream, and `main` becomes a function from arguments and a small world model
(directory listing plus the three child exit codes) to the list of observable
side effects (directory creations and subprocess spawns) and the final exit
status.
-/

/-- Positional value of a list of decimal digit characters; models Python
`int(s)` applied to a string of ASCII digits (so `int("007") = 7`). -/
def digitsVal (cs : List Char) : Nat :=
  cs.foldl (fun n c => 10 * n + (c.toNat - 48)) 0

/-- Models Python `s.isdigit()` for the ASCII strings produced by this
program: true iff `s` is nonempty and all characters are decimal digits. -/
def isDigitsStr (s : String) : Bool :=
  !(s == "") && s.toList.all Char.isDigit

/-- Models Python `s.startswith(pre)`; stated on the underlying character
lists so that concrete instances reduce in the kernel. -/
def strStartsWith (s pre : String) : Bool :=
  pre.toList.isPrefixOf s.toList

/-- Models Python `s[n:]`; stated on the underlying character lists. -/
def strDrop (s : String) (n : Nat) : String :=
  ⟨s.toList.drop n⟩

/-- Models Python `"%03d" % n` (the `f"{n:03d}"` format): decimal digits of
`n`, left-padded with zeros to a minimum width of three. -/
def pad3 (n : Nat) : String :=
  if n < 10 then "00" ++ toString n
  else if n < 100 then "0" ++ toString n
  else toString n

/-- Models `os.path.join a b` for a non-empty directory `a` with no trailing
slash and a relative component `b`, the only shapes this program builds. -/
def pathJoin (a b : String) : String := a ++ "/" ++ b

/-- One immediate child of the base output directory, as seen by
`os.listdir` plus the `os.path.isdir` test (previewBuilder.py:16-17). -/
structure DirEntry where
  name : String
  isDir : Bool
deriving DecidableEq, Repr

/-- Filter applied by `get_next_preview_dir` (previewBuilder.py:16-19): the
entry is a directory, its name starts with `p-`, and the rest is digits. -/
def isPreviewDirEntry (d : DirEntry) : Bool :=
  d.isDir && strStartsWith d.name "p-" && isDigitsStr (strDrop d.name 2)

/-- Names of the existing preview directories (previewBuilder.py:16-19). -/
def existing_dirs (entries : List DirEntry) : List String :=
  (entries.filter isPreviewDirEntry).map (fun d => d.name)

/-- Models `int(d[2:])` on a matched directory name (previewBuilder.py:25). -/
def dirNumber (d : String) : Nat := digitsVal (d.toList.drop 2)

/-- Embeds `get_next_preview_dir` (previewBuilder.py:11-26): with no matching
child the first identifier `p-001` is returned, otherwise `p-` followed by the
highest matched number plus one, formatted with `%03d`.  The `os.makedirs` on
the base path is modelled as an event in `main_trace` below. -/
def get_next_preview_dir (entries : List DirEntry) : String :=
  let dirs := existing_dirs entries
  if dirs.isEmpty then "p-001"
  else "p-" ++ pad3 ((dirs.map dirNumber).foldl max 0 + 1)

/-- Run identifiers carried by the immediate child directories of the base
output location: the numbers of the entries matching the run-name pattern. -/
def runIds (entries : List DirEntry) : List Nat :=
  (existing_dirs entries).map dirNumber

example : get_next_preview_dir [] = "p-001" := by decide
example : get_next_preview_dir
    [⟨"p-003", true⟩, ⟨"p-007", true⟩, ⟨"renders", true⟩, ⟨"p-9", false⟩]
    = "p-008" := by decide
example : get_next_preview_dir [⟨"p-099", true⟩] = "p-100" := by decide
example : get_next_preview_dir [⟨"p-999", true⟩] = "p-1000" := by decide

/-!
Progress extraction.  Each monitor loop scrapes its drained stream with a
regular expression: `Progress = (\d+)%` for the mesher (previewBuilder.py:69),
`Fra:(\d+)` for Blender (previewBuilder.py:130) and `frame=\s*(\d+)` for
ffmpeg (previewBuilder.py:196).  All three have the shape: a literal, then
optional whitespace (ffmpeg only), then one or more digits, then a literal
(`%` for the mesher, empty otherwise).  `re.search` finds the leftmost
position where the pattern matches; since neither trailing literal starts
with a digit, the greedy maximal digit run is the captured group.  The
preliminary `"…" in line` substring tests in the source are subsumed: they
are weaker than the regex match that follows them.
-/

/-- Python `\s` whitespace, over the characters these tools emit. -/
def isPySpace (c : Char) : Bool :=
  c = ' ' || c = '\t' || c = '\n' || c = '\r' || c = '\x0b' || c = '\x0c'

/-- Attempts the pattern `lit …ws… (\d+) post` anchored at the start of `s`,
returning the captured digit run's value. -/
def matchHere (lit : List Char) (skipWs : Bool) (post : List Char)
    (s : List Char) : Option Nat :=
  if lit.isPrefixOf s then
    let r0 := s.drop lit.length
    let r1 := if skipWs then r0.dropWhile isPySpace else r0
    let ds := r1.takeWhile Char.isDigit
    if ds.isEmpty then none
    else if post.isPrefixOf (r1.drop ds.length) then some (digitsVal ds)
    else none
  else none

/-- Leftmost match of the pattern anywhere in the line: models `re.search`
for the three patterns used by this program. -/
def reSearch (lit : List Char) (skipWs : Bool) (post : List Char) :
    List Char → Option Nat
  | [] => matchHere lit skipWs post []
  | c :: rest =>
    match matchHere lit skipWs post (c :: rest) with
    | some n => some n
    | none => reSearch lit skipWs post rest

/-- Progress extraction of the mesh stage: `Progress = (\d+)%`
(previewBuilder.py:69). -/
def mesher_extract (line : String) : Option Nat :=
  reSearch "Progress = ".toList false "%".toList line.toList

/-- Progress extraction of the render stage: `Fra:(\d+)`
(previewBuilder.py:130). -/
def blender_extract (line : String) : Option Nat :=
  reSearch "Fra:".toList false [] line.toList

/-- Progress extraction of the encode stage: `frame=\s*(\d+)`
(previewBuilder.py:196). -/
def webm_extract (line : String) : Option Nat :=
  reSearch "frame=".toList true [] line.toList

example : mesher_extract "Some Progress = 42% done" = some 42 := by decide
example : mesher_extract "Progress = 42" = none := by decide
example : blender_extract "Fra:180 Mem:12.03M" = some 180 := by decide
example : webm_extract "frame=  177 fps=30" = some 177 := by decide
example : webm_extract "framerate 30" = none := by decide

/-!
Monitor loops.  Each stage's `while True` loop folds over the lines read from
the single drained stream.  The `tqdm` bar's cumulative counter starts at 0
and each `pbar.update(d)` adds `d`:

* mesher (previewBuilder.py:67-85): state `last_progress = 0`, update by
  `progress - last_progress` when strictly greater, so the cumulative counter
  always equals `last_progress`;
* Blender (previewBuilder.py:128-152): state `last_frame = -1`, update by
  `current_frame - last_frame` when strictly greater, so the cumulative
  counter always equals `last_frame + 1`;
* ffmpeg (previewBuilder.py:194-214): state `last_progress = 0`, candidate
  value `min(100, int((frame / 180) * 100))`.  The Python quotient is computed
  in floating point; it is modelled here with exact natural truncated
  division, which can differ by at most the float rounding of the quotient
  and is in particular still capped at 100 by the `min`.
-/

/-- One iteration of the mesher monitor loop (previewBuilder.py:78-85). -/
def mesher_step (last : Nat) (line : String) : Nat :=
  match mesher_extract line with
  | some p => if p > last then p else last
  | none => last

/-- Cumulative mesh-stage progress counter after each line; the `tqdm` total
for this stage is 100 (previewBuilder.py:68). -/
def mesher_counters (lines : List String) : List Nat :=
  lines.scanl mesher_step 0

/-- One iteration of the Blender monitor loop (previewBuilder.py:144-152);
the state is `last_frame`, which starts at `-1`. -/
def blender_step (last : Int) (line : String) : Int :=
  match blender_extract line with
  | some f => if (f : Int) > last then (f : Int) else last
  | none => last

/-- Cumulative render-stage progress counter after each line (the `tqdm`
counter equals `last_frame + 1`); the total for this stage is 180
(previewBuilder.py:129). -/
def blender_counters (lines : List String) : List Int :=
  (lines.scanl blender_step (-1)).map (fun s => s + 1)

/-- One iteration of the ffmpeg monitor loop (previewBuilder.py:205-214). -/
def webm_step (last : Nat) (line : String) : Nat :=
  match webm_extract line with
  | some f =>
    let p := min 100 (f * 100 / 180)
    if p > last then p else last
  | none => last

/-- Cumulative encode-stage progress counter after each line; the `tqdm`
total for this stage is 100 (previewBuilder.py:195). -/
def webm_counters (lines : List String) : List Nat :=
  lines.scanl webm_step 0

example : mesher_counters ["Progress = 10%", "noise", "Progress = 65%"]
    = [0, 10, 10, 65] := by decide
example : blender_counters ["Fra:0", "Fra:1", "Fra:180"]
    = [0, 1, 2, 181] := by decide
example : webm_counters ["frame=   90", "frame=  180"]
    = [0, 50, 100] := by decide

/-!
Stream usage.  The claim about deadlock-free supervision is structural: which
of the child's two pipes each monitor loop drains line-by-line while the
child runs.  Transliterated from the `readline` calls of the three loops and
the bulk `read` calls in the failure branches.
-/

/-- One of the two output pipes of a child process. -/
inductive StreamId where
  | stdout
  | stderr
deriving DecidableEq, Repr

/-- Which streams a stage's monitor reads line-by-line during the child's
lifetime, and which it reads in one bulk `read()` after a failure exit. -/
structure StreamUsage where
  line_by_line : List StreamId
  bulk_after_failure : List StreamId
deriving DecidableEq, Repr

/-- Stream usage of `run_groove_mesher`: the loop reads only
`process.stdout.readline()` (previewBuilder.py:73); `process.stderr.read()`
happens only after a nonzero exit (previewBuilder.py:96). -/
def mesher_streams : StreamUsage :=
  { line_by_line := [StreamId.stdout], bulk_after_failure := [StreamId.stderr] }

/-- Stream usage of `run_blender`: the loop reads only
`process.stdout.readline()` (previewBuilder.py:135); `process.stderr.read()`
happens only after a nonzero exit (previewBuilder.py:159). -/
def blender_streams : StreamUsage :=
  { line_by_line := [StreamId.stdout], bulk_after_failure := [StreamId.stderr] }

/-- Stream usage of `create_webm`: the loop reads only
`process.stderr.readline()` (previewBuilder.py:201); `process.stderr.read()`
happens only after a nonzero exit (previewBuilder.py:221). -/
def webm_streams : StreamUsage :=
  { line_by_line := [StreamId.stderr], bulk_after_failure := [StreamId.stderr] }

/-- The property the specification demands of a supervisor: both the child's
standard output and standard error are drained line-by-line concurrently for
the whole lifetime of the process. -/
def drainsBoth (u : StreamUsage) : Prop :=
  StreamId.stdout ∈ u.line_by_line ∧ StreamId.stderr ∈ u.line_by_line

instance (u : StreamUsage) : Decidable (drainsBoth u) := by
  unfold drainsBoth; infer_instance

/-!
Post-exit handling.  After the monitor loop ends, each stage checks only
`process.returncode`: nonzero aborts the whole program via `sys.exit(1)`,
zero prints a completion message and returns.  None of the three stages
examines whether its declared output artifact exists on disk; the
`artifact_exists` parameter is carried so the (absent) dependence on it can
be stated.
-/

/-- Post-exit handling of `run_groove_mesher` (previewBuilder.py:94-100):
`true` means the stage is treated as successful and the pipeline continues;
`false` means `sys.exit(1)`.  The output artifact is never examined. -/
def mesher_postexit (returncode : Int) (_artifact_exists : Bool) : Bool :=
  if returncode ≠ 0 then false else true

/-- Post-exit handling of `run_blender` (previewBuilder.py:156-163); the
output artifact is never examined. -/
def blender_postexit (returncode : Int) (_artifact_exists : Bool) : Bool :=
  if returncode ≠ 0 then false else true

/-- Post-exit handling of `create_webm` (previewBuilder.py:218-225); the
output artifact is never examined. -/
def webm_postexit (returncode : Int) (_artifact_exists : Bool) : Bool :=
  if returncode ≠ 0 then false else true

/-!
The pipeline.  `main` (previewBuilder.py:238-293) is embedded as a function
from the parsed arguments and a world model — the immediate children of the
base output directory plus the exit code each child process would report — to
the sequence of observable filesystem/process effects and the final exit
status of the program (0 for success, 1 for `sys.exit(1)`).

Python truthiness matters for `--source_path`: both an absent flag (`None`)
and an explicitly empty string are falsy, and `main` tests truthiness at
lines 243, 247 and 266.
-/

/-- Parsed command-line arguments (previewBuilder.py:28-39). `none` models an
absent optional flag. -/
structure Args where
  source_path : Option String
  usdz_path : Option String
  output_path : String
  preview : Bool
  final : Bool
  width : Nat
  height : Nat
  base_blend : String
  blender_path : String
deriving DecidableEq, Repr

/-- Python truthiness of an optional string argument: `None` and `""` are
falsy, any other string is truthy. -/
def truthy : Option String → Bool
  | none => false
  | some s => !(s == "")

/-- Environment a single invocation runs against: the scan result of the
base output directory and the exit code of each external tool, were it to be
spawned. -/
structure World where
  entries : List DirEntry
  mesherRc : Int
  blenderRc : Int
  ffmpegRc : Int
deriving DecidableEq, Repr

/-- An observable side effect of `main`: a directory creation
(`os.makedirs`) or a child process spawn (`subprocess.Popen`) with its full
argument vector. -/
inductive Event where
  | makedirs (path : String)
  | spawn (cmd : List String)
deriving DecidableEq, Repr

/-- Argument vector of the mesher spawn (previewBuilder.py:47-57). -/
def groove_mesher_cmd (source_path output_path : String) (is_preview : Bool) :
    List String :=
  ["./groove-mesher", source_path, output_path,
   if is_preview then "--create-preview" else "--create-final-model"]

/-- Argument vector of the Blender spawn (previewBuilder.py:104-114). -/
def blender_cmd (blender_path usdz_path output_path : String)
    (width height : Nat) (base_blend : String) : List String :=
  [blender_path, "--background",
   "--python", "createTurntable.py",
   "--",
   "--usdz_path", usdz_path,
   "--output_path", output_path,
   "--width", toString width,
   "--height", toString height,
   "--base_blend", base_blend]

/-- Argument vector of the ffmpeg spawn (previewBuilder.py:171-183). -/
def ffmpeg_cmd (input_path output_path : String) : List String :=
  ["ffmpeg", "-y",
   "-framerate", "30",
   "-i", pathJoin input_path "preview.%04d.jpg",
   "-c:v", "libvpx",
   "-auto-alt-ref", "0",
   "-pix_fmt", "yuva420p",
   "-metadata:s:v:0", "alpha_mode=1",
   "-crf", "4",
   "-b:v", "10M",
   "-r", "30",
   output_path]

/-- Tail of `main` from the point where the model path for Blender is known
(previewBuilder.py:275-293): run Blender, abort on failure, then run ffmpeg
on the renders directory, abort on failure, else exit 0. -/
def after_mesh (a : Args) (w : World) (ev : List Event)
    (usdz preview_dir preview_path : String) : List Event × Nat :=
  let ev2 := ev ++ [Event.spawn (blender_cmd a.blender_path usdz preview_path
    a.width a.height a.base_blend)]
  if w.blenderRc ≠ 0 then (ev2, 1)
  else
    let ev3 := ev2 ++ [Event.spawn (ffmpeg_cmd (pathJoin preview_path "renders")
      (pathJoin preview_path (preview_dir ++ ".webm")))]
    if w.ffmpegRc ≠ 0 then (ev3, 1) else (ev3, 0)

/-- Embedding of `main` (previewBuilder.py:238-293): validation in source
order, then run-directory allocation (`os.makedirs` on the base inside
`get_next_preview_dir` and on the run directory at line 263), then the mesh
stage in raw-source mode with the preview-suffixed model name handed to the
render stage when quality mode is preview (lines 266-273), then the render
and encode stages. -/
def main_trace (a : Args) (w : World) : List Event × Nat :=
  if !truthy a.source_path && !truthy a.usdz_path then ([], 1)
  else if truthy a.source_path && truthy a.usdz_path then ([], 1)
  else if a.final && a.preview then ([], 1)
  else
    let is_preview := !a.final
    let preview_dir := get_next_preview_dir w.entries
    let preview_path := pathJoin a.output_path preview_dir
    let ev0 := [Event.makedirs a.output_path, Event.makedirs preview_path]
    if truthy a.source_path then
      let sp := a.source_path.getD ""
      let usdz_output := pathJoin preview_path (preview_dir ++ ".usdz")
      let ev1 := ev0 ++ [Event.spawn (groove_mesher_cmd sp usdz_output is_preview)]
      if w.mesherRc ≠ 0 then (ev1, 1)
      else
        after_mesh a w ev1
          (if is_preview then pathJoin preview_path (preview_dir ++ ".usdzpreview.usdz")
           else usdz_output)
          preview_dir preview_path
    else after_mesh a w ev0 (a.usdz_path.getD "") preview_dir preview_path

example :
    main_trace ⟨some "scans", none, "out", false, false, 252, 384, "b.blend", "blender"⟩
      ⟨[], 0, 0, 0⟩ =
    ([Event.makedirs "out", Event.makedirs "out/p-001",
      Event.spawn ["./groove-mesher", "scans", "out/p-001/p-001.usdz", "--create-preview"],
      Event.spawn ["blender", "--background", "--python", "createTurntable.py", "--",
        "--usdz_path", "out/p-001/p-001.usdzpreview.usdz",
        "--output_path", "out/p-001",
        "--width", "252", "--height", "384", "--base_blend", "b.blend"],
      Event.spawn ["ffmpeg", "-y", "-framerate", "30",
        "-i", "out/p-001/renders/preview.%04d.jpg",
        "-c:v", "libvpx", "-auto-alt-ref", "0", "-pix_fmt", "yuva420p",
        "-metadata:s:v:0", "alpha_mode=1", "-crf", "4", "-b:v", "10M", "-r", "30",
        "out/p-001/p-001.webm"]], 0) := by decide

/-!
Turntable render configuration, embedded from src/createTurntable.py.
`setup_animation` (lines 140-159) inserts two keyframes on the Z rotation, at
frame 0 with value 0 and at frame 180 with value 6.283185 radians (the
source comments it as 360 degrees), and marks every keyframe LINEAR.
`render_turntable` (lines 167-186) renders JPEG frames named `preview.` plus
the frame number into the `renders` subdirectory, with
`frame_start = 0` and `frame_end = 180`; Blender renders every frame of the
inclusive range `frame_start..frame_end`.
-/

/-- Scene frame range start (createTurntable.py:178). -/
def frame_start : Nat := 0

/-- Scene frame range end (createTurntable.py:179). -/
def frame_end : Nat := 180

/-- Frame numbers rendered by `bpy.ops.render.render(animation=True)`: the
inclusive range from `frame_start` to `frame_end`. -/
def rendered_frame_numbers : List Nat :=
  (List.range (frame_end - frame_start + 1)).map (fun i => frame_start + i)

/-- Z-rotation keyframes inserted by `setup_animation`
(createTurntable.py:149-154): frame number paired with the rotation value in
radians, as the exact rational value of the source literal. -/
def animation_keyframes : List (Nat × ℚ) :=
  [(0, 0), (180, 6283185 / 1000000)]

/-- Interpolation mode set on every keyframe (createTurntable.py:156-159). -/
def keyframe_interpolation : String := "LINEAR"

/-- Output image format (createTurntable.py:172). -/
def render_file_format : String := "JPEG"

/-- Render output path prefix (createTurntable.py:39 and 173): file
`preview.<frame>` inside the `renders` subdirectory of the run directory. -/
def render_filepath (output_path : String) : String :=
  pathJoin (pathJoin output_path "renders") "preview."

/-- Total rotation swept by the animation, in radians, from the first to the
second keyframe. -/
def rotation_sweep : ℚ :=
  ((animation_keyframes.getD 1 (0, 0)).2 - (animation_keyframes.getD 0 (0, 0)).2)

example : rendered_frame_numbers.length = 181 := by
  simp [rendered_frame_numbers, frame_end, frame_start]
example : render_filepath "out/p-001" = "out/p-001/renders/preview." := by decide
example : rotation_sweep = 6283185 / 1000000 := by
  norm_num [rotation_sweep, animation_keyframes]

/-- Argument combinations rejected by the validation block of `main`
(previewBuilder.py:242-253), in source order: neither input mode, both input
modes, both quality modes. -/
def invalid_args (a : Args) : Bool :=
  (!truthy a.source_path && !truthy a.usdz_path) ||
  (truthy a.source_path && truthy a.usdz_path) ||
  (a.final && a.preview)

/-- Effective quality mode (previewBuilder.py:256): preview unless `--final`
was given. -/
def effective_is_preview (a : Args) : Bool := !a.final

/-- Name of the mesh-stage artifact that `main` hands to the render stage in
raw-source mode, as a function of the quality mode and the run identifier
(previewBuilder.py:268 and 272-273). -/
def mesh_artifact_name (is_preview : Bool) (run_id : String) : String :=
  if is_preview then run_id ++ ".usdzpreview.usdz" else run_id ++ ".usdz"

/-!
Helper lemmas about folds, used by the progress-counter and allocator
theorems.
-/

/-- A fold by `max` dominates the seed. -/
theorem seed_le_foldl_max : ∀ (l : List Nat) (a : Nat), a ≤ l.foldl max a := by
  intro l
  induction l with
  | nil => intro a; exact Nat.le_refl a
  | cons b l ih =>
    intro a
    rw [List.foldl_cons]
    exact Nat.le_trans (Nat.le_max_left a b) (ih (max a b))

/-- A fold by `max` dominates every list element. -/
theorem mem_le_foldl_max :
    ∀ (l : List Nat) (a x : Nat), x ∈ l → x ≤ l.foldl max a := by
  intro l
  induction l with
  | nil => intro a x hx; cases hx
  | cons b l ih =>
    intro a x hx
    rw [List.foldl_cons]
    rcases List.mem_cons.mp hx with h | h
    · subst h
      exact Nat.le_trans (Nat.le_max_right a x) (seed_le_foldl_max l (max a x))
    · exact ih (max a b) x h

/-- A fold by `max` is the seed or one of the list elements. -/
theorem foldl_max_mem :
    ∀ (l : List Nat) (a : Nat), l.foldl max a = a ∨ l.foldl max a ∈ l := by
  intro l
  induction l with
  | nil => intro a; exact Or.inl rfl
  | cons b l ih =>
    intro a
    rw [List.foldl_cons]
    rcases ih (max a b) with h | h
    · rcases Nat.le_total a b with hab | hab
      · right
        rw [h, Nat.max_eq_right hab]
        exact List.mem_cons_self b l
      · left
        rw [h, Nat.max_eq_left hab]
    · exact Or.inr (List.mem_cons_of_mem b h)

/-- A fold by `max` from seed 0 computes the maximum of a list that has one. -/
theorem foldl_max_eq_of_max {l : List Nat} {m : Nat}
    (hm : m ∈ l) (hb : ∀ x ∈ l, x ≤ m) : l.foldl max 0 = m := by
  have h1 : m ≤ l.foldl max 0 := mem_le_foldl_max l 0 m hm
  rcases foldl_max_mem l 0 with h | h
  · omega
  · exact Nat.le_antisymm (hb _ h) h1

/-- A `scanl` by a step function that never decreases the state yields a
non-decreasing sequence. -/
theorem chain_le_scanl {σ : Type} [Preorder σ] (f : σ → String → σ)
    (hf : ∀ s a, s ≤ f s a) :
    ∀ (l : List String) (s : σ), List.Chain' (· ≤ ·) (l.scanl f s) := by
  intro l
  induction l with
  | nil => intro s; simp
  | cons a l ih =>
    intro s
    rw [List.scanl_cons]
    refine List.chain'_cons'.mpr ⟨?_, ih (f s a)⟩
    intro y hy
    cases l <;> simp [List.scanl] at hy <;> exact hy ▸ hf s a

/-- States along a `scanl` satisfy any property preserved by the step
function on the lines actually folded over. -/
theorem scanl_invariant {σ : Type} (P : σ → Prop) (f : σ → String → σ) :
    ∀ (l : List String) (s : σ), (∀ t a, a ∈ l → P t → P (f t a)) → P s →
      ∀ x ∈ l.scanl f s, P x := by
  intro l
  induction l with
  | nil =>
    intro s _ hs x hx
    rw [List.scanl_nil] at hx
    rcases List.mem_singleton.mp hx with h
    rw [h]; exact hs
  | cons a l ih =>
    intro s hstep hs x hx
    rw [List.scanl_cons] at hx
    rcases List.mem_cons.mp hx with h | h
    · rw [h]; exact hs
    · exact ih (f s a) (fun t b hb => hstep t b (List.mem_cons_of_mem a hb))
        (hstep s a (List.mem_cons_self a l) hs) x h

/-- Each monitor step never decreases the mesh-stage state. -/
theorem mesher_step_le (s : Nat) (a : String) : s ≤ mesher_step s a := by
  unfold mesher_step
  cases mesher_extract a with
  | none => exact Nat.le_refl s
  | some p =>
    dsimp only
    split <;> omega

/-- Each monitor step never decreases the render-stage state. -/
theorem blender_step_le (s : Int) (a : String) : s ≤ blender_step s a := by
  unfold blender_step
  cases blender_extract a with
  | none => exact Int.le_refl s
  | some f =>
    dsimp only
    split <;> omega

/-- Each monitor step never decreases the encode-stage state. -/
theorem webm_step_le (s : Nat) (a : String) : s ≤ webm_step s a := by
  unfold webm_step
  cases webm_extract a with
  | none => exact Nat.le_refl s
  | some f =>
    dsimp only
    split <;> omega

/-- The encode-stage state never exceeds 100, thanks to the `min(100, ·)`
cap. -/
theorem webm_step_le_100 (s : Nat) (a : String) (hs : s ≤ 100) :
    webm_step s a ≤ 100 := by
  unfold webm_step
  cases webm_extract a with
  | none => exact hs
  | some f =>
    dsimp only
    split
    · exact Nat.min_le_left 100 _
    · exact hs

/-- C1: the claim that every stage supervisor drains both the child's
standard output and standard error line-by-line for the whole lifetime of
the process is false: the mesh-stage monitor loop reads only standard
output (and the encode-stage loop reads only standard error). -/
theorem C1_counterexample : ¬ drainsBoth mesher_streams := by decide

/-- C1 (amended): each stage's monitor loop drains exactly one stream
line-by-line during the child's lifetime — standard output for the mesh and
render stages, standard error for the encode stage; the mesh and render
supervisors read standard error only in one bulk read after a failure
exit. -/
theorem C1_amended_single_stream :
    mesher_streams.line_by_line = [StreamId.stdout] ∧
    blender_streams.line_by_line = [StreamId.stdout] ∧
    webm_streams.line_by_line = [StreamId.stderr] ∧
    mesher_streams.bulk_after_failure = [StreamId.stderr] ∧
    blender_streams.bulk_after_failure = [StreamId.stderr] := by
  decide

/-- C6: the claim that a stage whose child exits with status zero verifies
the declared output artifact, and fails when the artifact is missing, is
false: the mesh stage reports success on exit status 0 even when the
artifact does not exist (the render and encode stages behave the same
way). -/
theorem C6_counterexample :
    ¬ (mesher_postexit 0 false = false) ∧
    ¬ (blender_postexit 0 false = false) ∧
    ¬ (webm_postexit 0 false = false) := by decide

/-- C6 (amended): for every stage, the post-exit handling looks only at the
child's exit status — success is reported exactly when the status is zero,
regardless of whether the declared output artifact exists; a nonzero status
aborts with exit status 1. -/
theorem C6_amended_no_artifact_check :
    ∀ (rc : Int) (artifact_exists : Bool),
      (mesher_postexit rc artifact_exists = true ↔ rc = 0) ∧
      (blender_postexit rc artifact_exists = true ↔ rc = 0) ∧
      (webm_postexit rc artifact_exists = true ↔ rc = 0) ∧
      mesher_postexit rc artifact_exists = mesher_postexit rc (!artifact_exists) := by
  intro rc ex
  unfold mesher_postexit blender_postexit webm_postexit
  have h : (if rc ≠ 0 then false else true) = true ↔ rc = 0 := by
    by_cases hrc : rc = 0 <;> simp [hrc]
  exact ⟨h, h, h, rfl⟩

/-- C7: the claim that the render stage spans a total of 180 frames making
two full turns is false: the scene renders the inclusive frame range 0..180,
that is 181 frames, and the rotation swept between the two keyframes is
6.283185 radians, which is less than the 4·π radians of two full turns (it
is one full turn). -/
theorem C7_counterexample :
    rendered_frame_numbers.length = 181 ∧ (181 ≠ 180) ∧
    ((rotation_sweep : ℝ) < 2 * (2 * Real.pi)) := by
  refine ⟨by simp [rendered_frame_numbers, frame_end, frame_start], by omega, ?_⟩
  have hπ : (3.141592 : ℝ) < Real.pi := Real.pi_gt_d6
  have hs : (rotation_sweep : ℝ) = 6.283185 := by
    norm_num [rotation_sweep, animation_keyframes]
  rw [hs]
  nlinarith

/-- C7 (amended): the render stage produces the ordered image sequence
`preview.<frame>` (JPEG) in the run's `renders` subdirectory over the
inclusive frame range 0..180 — 181 frames — with linear interpolation
between two rotation keyframes at frame 0 and frame 180 whose sweep is one
full turn (2·π radians, up to the source literal's precision of a millionth
of a radian). -/
theorem C7_amended_turntable :
    frame_start = 0 ∧ frame_end = 180 ∧
    rendered_frame_numbers.length = frame_end - frame_start + 1 ∧
    (animation_keyframes.map Prod.fst = [0, 180]) ∧
    keyframe_interpolation = "LINEAR" ∧
    render_file_format = "JPEG" ∧
    render_filepath "out/p-001" = "out/p-001/renders/preview." ∧
    |(rotation_sweep : ℝ) - 2 * Real.pi| < 1 / 1000000 := by
  refine ⟨rfl, rfl, by simp [rendered_frame_numbers, frame_end, frame_start],
    by decide, rfl, rfl, by decide, ?_⟩
  have hlo : (3.141592 : ℝ) < Real.pi := Real.pi_gt_d6
  have hhi : Real.pi < 3.141593 := Real.pi_lt_d6
  have hs : (rotation_sweep : ℝ) = 6.283185 := by
    norm_num [rotation_sweep, animation_keyframes]
  rw [hs, abs_lt]
  constructor <;> nlinarith

/-- C2: the claim that the cumulative progress counter of every stage never
exceeds the stage's declared total is false.  The render stage's counter is
`last_frame + 1`, so the single line `Fra:180` — reported by a normal full
render — drives it to 181, above the declared total of 180; and a mesher
line reporting more than 100% drives the mesh counter above its total of
100. -/
theorem C2_counterexample :
    blender_counters ["Fra:180"] = [0, 181] ∧ ¬ ((181 : Int) ≤ 180) ∧
    mesher_counters ["Progress = 150%"] = [0, 150] ∧ ¬ ((150 : Nat) ≤ 100) := by
  refine ⟨by decide, by decide, by decide, by decide⟩

/-- C2 (amended): every stage's cumulative progress counter is non-decreasing
over the stage's lifetime.  The encode counter moreover never exceeds its
total of 100.  The mesh and render counters are bounded by the child's
reports, not by the declared totals: the mesh counter stays within 100 only
when every reported percentage is at most 100, and the render counter stays
within 181 — one above its declared total of 180 — when every reported frame
index is at most 180. -/
theorem C2_amended_progress :
    (∀ lines : List String, List.Chain' (· ≤ ·) (mesher_counters lines)) ∧
    (∀ lines : List String, List.Chain' (· ≤ ·) (blender_counters lines)) ∧
    (∀ lines : List String, List.Chain' (· ≤ ·) (webm_counters lines)) ∧
    (∀ lines : List String, ∀ c ∈ webm_counters lines, c ≤ 100) ∧
    (∀ lines : List String,
      (∀ l ∈ lines, ∀ p, mesher_extract l = some p → p ≤ 100) →
      ∀ c ∈ mesher_counters lines, c ≤ 100) ∧
    (∀ lines : List String,
      (∀ l ∈ lines, ∀ f, blender_extract l = some f → f ≤ 180) →
      ∀ c ∈ blender_counters lines, c ≤ 181) := by
  refine ⟨?_, ?_, ?_, ?_, ?_, ?_⟩
  · intro lines
    exact chain_le_scanl mesher_step mesher_step_le lines 0
  · intro lines
    unfold blender_counters
    rw [List.chain'_map]
    exact (chain_le_scanl blender_step blender_step_le lines (-1)).imp
      (fun h => by omega)
  · intro lines
    exact chain_le_scanl webm_step webm_step_le lines 0
  · intro lines
    exact scanl_invariant (fun s => s ≤ 100) webm_step lines 0
      (fun t a _ ht => webm_step_le_100 t a ht) (by omega)
  · intro lines hrep
    refine scanl_invariant (fun s => s ≤ 100) mesher_step lines 0 ?_ (by omega)
    intro t a ha ht
    unfold mesher_step
    cases hx : mesher_extract a with
    | none => exact ht
    | some p =>
      dsimp only
      have := hrep a ha p hx
      split <;> omega
  · intro lines hrep c hc
    unfold blender_counters at hc
    rcases List.mem_map.mp hc with ⟨s, hs, rfl⟩
    have : s ≤ 180 := by
      refine scanl_invariant (fun t => t ≤ 180) blender_step lines (-1) ?_
        (by omega) s hs
      intro t a ha ht
      unfold blender_step
      cases hx : blender_extract a with
      | none => exact ht
      | some f =>
        dsimp only
        have := hrep a ha f hx
        split <;> omega
    omega

/-- C3: the run-directory allocator returns `p-001` when no immediate child
of the base output location matches the `p-` + digits pattern, and otherwise
`p-` followed by the successor of the largest matched run number, zero-padded
to three digits. -/
theorem C3_allocator (entries : List DirEntry) :
    (runIds entries = [] → get_next_preview_dir entries = "p-001") ∧
    (∀ m : Nat, m ∈ runIds entries → (∀ x ∈ runIds entries, x ≤ m) →
      get_next_preview_dir entries = "p-" ++ pad3 (m + 1)) := by
  constructor
  · intro h
    unfold runIds at h
    unfold get_next_preview_dir
    rcases List.map_eq_nil_iff.mp h with h2
    simp [h2]
  · intro m hm hb
    unfold runIds at hm hb
    unfold get_next_preview_dir
    have hne : ¬((existing_dirs entries).isEmpty = true) := by
      intro h
      rw [List.isEmpty_iff] at h
      rw [h] at hm
      cases hm
    rw [if_neg hne, foldl_max_eq_of_max hm hb]

/-- Witness for C3 at a concrete directory listing: entries `p-003` and
`p-007` match (one child is not a directory, one does not match the
pattern), so the next identifier is `p-008`. -/
theorem C3_allocator_witness :
    get_next_preview_dir
      [⟨"p-003", true⟩, ⟨"p-007", true⟩, ⟨"renders", true⟩, ⟨"p-9", false⟩]
      = "p-008" :=
  ((C3_allocator
    [⟨"p-003", true⟩, ⟨"p-007", true⟩, ⟨"renders", true⟩, ⟨"p-9", false⟩]).2
    7 (by decide) (by decide)).trans (by decide)

/-- Witness for C2 (amended) at a concrete line list: a full render's final
`Fra:180` line yields the counter 181, which the amended bound 181 admits. -/
theorem C2_amended_progress_witness : (181 : Int) ≤ 181 :=
  C2_amended_progress.2.2.2.2.2 ["Fra:180"]
    (by
      intro l hl f hf
      rcases List.mem_singleton.mp hl with rfl
      have h : blender_extract "Fra:180" = some 180 := by decide
      rw [h] at hf
      cases Option.some.inj hf
      omega)
    181 (by decide)

/-- C4: if both input modes are given, or neither, or both quality modes are
given, `main` exits with status 1 having produced no observable effect — no
directory is created (run directory or otherwise) and no subprocess is
spawned; and when neither quality flag is given, the effective quality mode
is preview. -/
theorem C4_validation (a : Args) (w : World) :
    (invalid_args a = true → main_trace a w = ([], 1)) ∧
    (a.preview = false → a.final = false → effective_is_preview a = true) := by
  constructor
  · intro h
    cases hs : truthy a.source_path <;> cases hu : truthy a.usdz_path <;>
      cases hf : a.final <;> cases hp : a.preview <;>
      simp_all [invalid_args, main_trace]
  · intro _ hf
    simp [effective_is_preview, hf]

/-- Witness for C4 at a concrete invocation with neither input mode: exit
status 1 with an empty effect trace, and the default quality mode of the
same argument record (with neither quality flag) is preview. -/
theorem C4_validation_witness :
    main_trace ⟨none, none, "out", false, false, 252, 384, "b.blend", "blender"⟩
      ⟨[], 0, 0, 0⟩ = ([], 1) ∧
    effective_is_preview
      ⟨none, none, "out", false, false, 252, 384, "b.blend", "blender"⟩ = true :=
  ⟨(C4_validation ⟨none, none, "out", false, false, 252, 384, "b.blend", "blender"⟩
      ⟨[], 0, 0, 0⟩).1 (by decide),
   (C4_validation ⟨none, none, "out", false, false, 252, 384, "b.blend", "blender"⟩
      ⟨[], 0, 0, 0⟩).2 rfl rfl⟩

/-- C5: when the render stage's child exits nonzero, the program exits with
status 1 and the encode stage's process is never spawned; and more generally,
in raw-source mode a mesh-stage failure means neither the render nor the
encode process is ever spawned and the exit status is 1. -/
theorem C5_failfast (a : Args) (w : World) :
    (w.blenderRc ≠ 0 → (main_trace a w).2 = 1 ∧
      ∀ ip op, Event.spawn (ffmpeg_cmd ip op) ∉ (main_trace a w).1) ∧
    (truthy a.source_path = true → w.mesherRc ≠ 0 → (main_trace a w).2 = 1 ∧
      (∀ bp u op wd ht bb,
        Event.spawn (blender_cmd bp u op wd ht bb) ∉ (main_trace a w).1) ∧
      ∀ ip op, Event.spawn (ffmpeg_cmd ip op) ∉ (main_trace a w).1) := by
  constructor
  · intro hb
    cases hs : truthy a.source_path <;> cases hu : truthy a.usdz_path <;>
      cases hf : a.final <;> cases hp : a.preview <;>
      by_cases hm : w.mesherRc = 0 <;>
      simp_all [main_trace, after_mesh, ffmpeg_cmd, blender_cmd, groove_mesher_cmd]
  · intro hs hm
    cases hu : truthy a.usdz_path <;>
      cases hf : a.final <;> cases hp : a.preview <;>
      simp_all [main_trace, after_mesh, ffmpeg_cmd, blender_cmd, groove_mesher_cmd]

/-- Witness for C5 at a concrete invocation in pre-built model mode whose
render child exits with status 3: overall exit status 1 and the encode
spawn for this run's paths is absent from the effect trace. -/
theorem C5_failfast_witness :
    (main_trace ⟨none, some "m.usdz", "out", false, false, 252, 384, "b.blend", "blender"⟩
      ⟨[], 0, 3, 0⟩).2 = 1 ∧
    Event.spawn (ffmpeg_cmd "out/p-001/renders" "out/p-001/p-001.webm")
      ∉ (main_trace ⟨none, some "m.usdz", "out", false, false, 252, 384, "b.blend", "blender"⟩
      ⟨[], 0, 3, 0⟩).1 := by
  have h := (C5_failfast
    ⟨none, some "m.usdz", "out", false, false, 252, 384, "b.blend", "blender"⟩
    ⟨[], 0, 3, 0⟩).1 (by decide)
  exact ⟨h.1, h.2 "out/p-001/renders" "out/p-001/p-001.webm"⟩

/-- C8: in raw-source mode, the model path handed to the render stage is the
run directory joined with an explicit deterministic function of the quality
mode and the run identifier — `<id>.usdzpreview.usdz` under preview mode,
`<id>.usdz` under final mode — and the two names are distinct for every run
identifier. -/
theorem C8_artifact_naming (a : Args) (w : World)
    (hv : invalid_args a = false) (hs : truthy a.source_path = true)
    (hm : w.mesherRc = 0) :
    Event.spawn (blender_cmd a.blender_path
      (pathJoin (pathJoin a.output_path (get_next_preview_dir w.entries))
        (mesh_artifact_name (effective_is_preview a) (get_next_preview_dir w.entries)))
      (pathJoin a.output_path (get_next_preview_dir w.entries))
      a.width a.height a.base_blend) ∈ (main_trace a w).1 ∧
    (∀ r : String, mesh_artifact_name true r ≠ mesh_artifact_name false r) := by
  constructor
  · cases hu : truthy a.usdz_path <;> cases hf : a.final <;> cases hp : a.preview <;>
      by_cases hb : w.blenderRc = 0 <;> by_cases hff : w.ffmpegRc = 0 <;>
      simp_all [main_trace, after_mesh, invalid_args, mesh_artifact_name,
        effective_is_preview]
  · intro r h
    have h' : r.data ++ ".usdzpreview.usdz".data = r.data ++ ".usdz".data :=
      congrArg String.data h
    exact absurd (List.append_cancel_left h') (by decide)

/-- Witness for C8 at a concrete raw-source invocation into an empty base
directory: the render stage receives `out/p-001/p-001.usdzpreview.usdz`, and
the preview and final names differ for the identifier `p-001`. -/
theorem C8_artifact_naming_witness :
    Event.spawn (blender_cmd "blender" "out/p-001/p-001.usdzpreview.usdz" "out/p-001"
      252 384 "b.blend")
      ∈ (main_trace ⟨some "scans", none, "out", false, false, 252, 384, "b.blend", "blender"⟩
        ⟨[], 0, 0, 0⟩).1 ∧
    mesh_artifact_name true "p-001" ≠ mesh_artifact_name false "p-001" := by
  have h := C8_artifact_naming
    ⟨some "scans", none, "out", false, false, 252, 384, "b.blend", "blender"⟩
    ⟨[], 0, 0, 0⟩ (by decide) (by decide) rfl
  exact ⟨h.1, h.2 "p-001"⟩

/-- C9: when validation passes and all three children exit with status zero,
the program exits with status 0 and the encode stage is spawned with the
image-sequence input `<base>/p-NNN/renders/preview.%04d.jpg` at framerate 30,
VP8 with alpha preserved (`yuva420p`, `alpha_mode=1`), writing the final
artifact to the deterministic path `<base>/p-NNN/p-NNN.webm` for the
allocated run identifier. -/
theorem C9_success (a : Args) (w : World)
    (hv : invalid_args a = false)
    (hm : w.mesherRc = 0) (hb : w.blenderRc = 0) (hff : w.ffmpegRc = 0) :
    (main_trace a w).2 = 0 ∧
    Event.spawn ["ffmpeg", "-y", "-framerate", "30",
      "-i", pathJoin (pathJoin (pathJoin a.output_path (get_next_preview_dir w.entries))
        "renders") "preview.%04d.jpg",
      "-c:v", "libvpx", "-auto-alt-ref", "0", "-pix_fmt", "yuva420p",
      "-metadata:s:v:0", "alpha_mode=1", "-crf", "4", "-b:v", "10M", "-r", "30",
      pathJoin (pathJoin a.output_path (get_next_preview_dir w.entries))
        (get_next_preview_dir w.entries ++ ".webm")] ∈ (main_trace a w).1 := by
  cases hs : truthy a.source_path <;> cases hu : truthy a.usdz_path <;>
    cases hfin : a.final <;> cases hp : a.preview <;>
    simp_all [main_trace, after_mesh, invalid_args, ffmpeg_cmd]

/-- Witness for C9 at a concrete pre-built model invocation into an empty
base directory with all children succeeding: exit status 0 and the encode
spawn targets `out/p-001/p-001.webm`. -/
theorem C9_success_witness :
    (main_trace ⟨none, some "m.usdz", "out", false, false, 252, 384, "b.blend", "blender"⟩
      ⟨[], 0, 0, 0⟩).2 = 0 ∧
    Event.spawn ["ffmpeg", "-y", "-framerate", "30",
      "-i", "out/p-001/renders/preview.%04d.jpg",
      "-c:v", "libvpx", "-auto-alt-ref", "0", "-pix_fmt", "yuva420p",
      "-metadata:s:v:0", "alpha_mode=1", "-crf", "4", "-b:v", "10M", "-r", "30",
      "out/p-001/p-001.webm"]
      ∈ (main_trace ⟨none, some "m.usdz", "out", false, false, 252, 384, "b.blend", "blender"⟩
        ⟨[], 0, 0, 0⟩).1 := by
  have h := C9_success
    ⟨none, some "m.usdz", "out", false, false, 252, 384, "b.blend", "blender"⟩
    ⟨[], 0, 0, 0⟩ (by decide) rfl rfl rfl
  exact ⟨h.1, h.2⟩

/-- C10: in pre-built model mode the quality flags have no effect — two
invocations identical except for the preview/final flags (each a valid
combination) produce identical effect traces (the same directory creations,
the same stage argument vectors, the same output paths) and the same exit
status, and the mesh stage is never spawned. -/
theorem C10_quality_mode_independent (a : Args) (w : World) (p1 f1 p2 f2 : Bool)
    (hs : a.source_path = none) (hu : truthy a.usdz_path = true)
    (h1 : (f1 && p1) = false) (h2 : (f2 && p2) = false) :
    main_trace { a with preview := p1, final := f1 } w
      = main_trace { a with preview := p2, final := f2 } w ∧
    ∀ sp op ip, Event.spawn (groove_mesher_cmd sp op ip)
      ∉ (main_trace { a with preview := p1, final := f1 } w).1 := by
  constructor
  · cases p1 <;> cases f1 <;> cases p2 <;> cases f2 <;>
      simp_all [main_trace, after_mesh, truthy, hs]
  · intro sp op ip
    cases p1 <;> cases f1 <;>
      by_cases hb : w.blenderRc = 0 <;> by_cases hff : w.ffmpegRc = 0 <;>
      simp_all [main_trace, after_mesh, truthy, hs, groove_mesher_cmd, blender_cmd,
        ffmpeg_cmd]

/-- Witness for C10 at two concrete invocations differing only in the
quality flags (`--preview` vs `--final`) in pre-built model mode: identical
effect traces and exit status, and no mesher spawn. -/
theorem C10_quality_mode_independent_witness :
    main_trace ⟨none, some "m.usdz", "out", true, false, 252, 384, "b.blend", "blender"⟩
      ⟨[], 0, 0, 0⟩
      = main_trace ⟨none, some "m.usdz", "out", false, true, 252, 384, "b.blend", "blender"⟩
      ⟨[], 0, 0, 0⟩ ∧
    Event.spawn (groove_mesher_cmd "scans" "out/p-001/p-001.usdz" true)
      ∉ (main_trace ⟨none, some "m.usdz", "out", true, false, 252, 384, "b.blend", "blender"⟩
        ⟨[], 0, 0, 0⟩).1 := by
  have h := C10_quality_mode_independent
    ⟨none, some "m.usdz", "out", true, false, 252, 384, "b.blend", "blender"⟩
    ⟨[], 0, 0, 0⟩ true false false true rfl rfl rfl rfl
  exact ⟨h.1, h.2 "scans" "out/p-001/p-001.usdz" true⟩

/-- Witness for C6 (amended) at a concrete post-exit state: exit status 0
with the declared output artifact missing is still reported as success. -/
theorem C6_amended_no_artifact_check_witness : mesher_postexit 0 false = true :=
  (C6_amended_no_artifact_check 0 false).1.mpr rfl
